import Mathlib

/-!
# Verification of the OMR-Evaluator backend

Shallow embedding of the FastAPI backend in `server/app/`:

* `schemas.py`  — Pydantic request validation (`QuestionPaperBase.validate_details`);
* `models.py`   — the `QuestionPaper` / `Result` tables with cascade delete;
* `routes/questions.py` — CRUD handlers for question papers;
* `routes/evaluate.py`  — the evaluation workflow and result queries;
* `services/omr_service.py` — file intake, cleanup and the scoring stub.

Conventions of the embedding:

* JSON documents (the `details` column and request bodies) are values of the
  inductive type `Json`; Python dictionaries are `Json.obj` association lists.
* The relational store is a `Store`: a list of papers, a list of results and
  the next autoincrement result id.  Uploaded files live in a `FileSys`
  association list from path to byte contents.
* Nondeterminism of the environment is passed in explicitly: `random.randint`
  and `random.randbytes` are functions of a generator state (`seed` / `token`);
  a possible exception inside `db.commit()` (or the file write) is an
  `Option String` holding the exception message, `none` meaning success;
  a possible `os.remove` failure is a `removeOk : Bool` flag.
* Python exceptions that escape a function are `Except.error`; an
  `HTTPException(status, detail)` is `ApiError.http status detail`; a Pydantic
  request-validation failure (raised before the route handler runs) is
  `ApiError.validation msg`.
-/

/-- A JSON value, as stored in the `details` JSON column and carried in request
bodies.  Numeric literals are modelled as integers (the repository only ever
takes lengths of such values, never arithmetic on them). -/
inductive Json where
  | null : Json
  | bool : Bool → Json
  | num : Int → Json
  | str : String → Json
  | arr : List Json → Json
  | obj : List (String × Json) → Json
deriving Repr, BEq, Inhabited

/-- Key lookup in a JSON object; `none` on non-objects or absent keys. -/
def Json.lookup (j : Json) (key : String) : Option Json :=
  match j with
  | Json.obj fields =>
      match fields.find? (fun kv => kv.1 = key) with
      | some kv => some kv.2
      | none => none
  | _ => none

/-- Whether a JSON object carries the given key (`false` on non-objects). -/
def Json.hasKey (j : Json) (key : String) : Bool :=
  match j with
  | Json.obj fields => fields.any (fun kv => kv.1 = key)
  | _ => false

/-- Python `key in v` for the values the validator can meet: key membership for
dicts, element membership for lists, substring test for strings, and a
`TypeError` for the remaining scalars. -/
def pyContains (v : Json) (key : String) : Except String Bool :=
  match v with
  | Json.obj fields => Except.ok (fields.any (fun kv => kv.1 = key))
  | Json.arr elems => Except.ok (elems.any (fun e => e == Json.str key))
  | Json.str s => Except.ok ((s.splitOn key).length ≥ 2 || key = "")
  | _ => Except.error "argument of type is not iterable"

/-- Python `len(v)`: defined for lists, strings and dicts, a `TypeError` for
scalars — this is exactly the error path exercised when `details["questions"]`
is not a sized value. -/
def pyLen (v : Json) : Except String Nat :=
  match v with
  | Json.arr elems => Except.ok elems.length
  | Json.str s => Except.ok s.length
  | Json.obj fields => Except.ok fields.length
  | Json.num _ => Except.error "object of type 'int' has no len()"
  | Json.bool _ => Except.error "object of type 'bool' has no len()"
  | Json.null => Except.error "object of type 'NoneType' has no len()"

/-- Python `v.get(key, default)` on a dict (`details.get("questions", [])` in
`omr_service.py`); an `AttributeError` when `v` is not a dict. -/
def pyGet (v : Json) (key : String) (dflt : Json) : Except String Json :=
  match v with
  | Json.obj fields =>
      match fields.find? (fun kv => kv.1 = key) with
      | some kv => Except.ok kv.2
      | none => Except.ok dflt
  | _ => Except.error "object has no attribute get"

/-! ## A model of `json.loads`

`validate_details` falls back to `json.loads(v)` when `v` is not a dict.
The parser below models that call on string input: JSON whitespace, `null`,
booleans, integer numerals, strings (with single-character escapes), arrays
and objects.  Fractional numerals and `\u` escapes are outside the model;
the branch is anyway unreachable through the API (the Pydantic field type
`Dict` rejects non-dict values before the validator runs). -/

/-- JSON insignificant whitespace. -/
def jsonWs (c : Char) : Bool :=
  c == ' ' || c == '\n' || c == '\t' || c == '\r'

/-- Drop leading JSON whitespace. -/
def skipWs : List Char → List Char
  | [] => []
  | c :: cs => if jsonWs c then skipWs cs else c :: cs

/-- Decimal digits to a natural number. -/
def digitsToNat (ds : List Char) : Nat :=
  ds.foldl (fun acc c => acc * 10 + (c.toNat - 48)) 0

/-- Single-character string escapes (`\n`, `\t`, `\r`; any other escaped
character stands for itself). -/
def unescapeChar (c : Char) : Char :=
  if c == 'n' then '\n' else if c == 't' then '\t' else if c == 'r' then '\r' else c

/-- Parse the remainder of a JSON string literal (the opening quote already
consumed), returning the contents and the rest of the input. -/
def parseStrRest : Nat → List Char → Option (String × List Char)
  | 0, _ => none
  | _ + 1, [] => none
  | fuel + 1, c :: cs =>
    if c == '"' then some ("", cs)
    else if c == '\\' then
      match cs with
      | [] => none
      | e :: cs2 =>
          match parseStrRest fuel cs2 with
          | some (s, rest) => some (String.mk (unescapeChar e :: s.data), rest)
          | none => none
    else
      match parseStrRest fuel cs with
      | some (s, rest) => some (String.mk (c :: s.data), rest)
      | none => none

mutual

/-- Parse one JSON value, returning it and the unconsumed input. -/
def parseVal : Nat → List Char → Option (Json × List Char)
  | 0, _ => none
  | fuel + 1, cs =>
    match skipWs cs with
    | 'n' :: 'u' :: 'l' :: 'l' :: rest => some (Json.null, rest)
    | 't' :: 'r' :: 'u' :: 'e' :: rest => some (Json.bool true, rest)
    | 'f' :: 'a' :: 'l' :: 's' :: 'e' :: rest => some (Json.bool false, rest)
    | '"' :: rest =>
        match parseStrRest fuel rest with
        | some (s, rest2) => some (Json.str s, rest2)
        | none => none
    | '[' :: rest =>
        (match skipWs rest with
         | ']' :: rest2 => some (Json.arr [], rest2)
         | other =>
             match parseArrItems fuel other with
             | some (vs, rest2) => some (Json.arr vs, rest2)
             | none => none)
    | '\x7b' :: rest =>
        (match skipWs rest with
         | '\x7d' :: rest2 => some (Json.obj [], rest2)
         | other =>
             match parseObjItems fuel other with
             | some (kvs, rest2) => some (Json.obj kvs, rest2)
             | none => none)
    | '-' :: rest =>
        let p := rest.span Char.isDigit
        if p.1.isEmpty then none
        else some (Json.num (-(digitsToNat p.1 : Int)), p.2)
    | c :: rest =>
        if c.isDigit then
          let p := (c :: rest).span Char.isDigit
          some (Json.num (digitsToNat p.1 : Int), p.2)
        else none
    | [] => none

/-- Parse a non-empty comma-separated list of values up to the closing
bracket. -/
def parseArrItems : Nat → List Char → Option (List Json × List Char)
  | 0, _ => none
  | fuel + 1, cs =>
    match parseVal fuel cs with
    | none => none
    | some (v, rest) =>
      match skipWs rest with
      | ',' :: rest2 =>
          (match parseArrItems fuel rest2 with
           | some (vs, rest3) => some (v :: vs, rest3)
           | none => none)
      | ']' :: rest2 => some ([v], rest2)
      | _ => none

/-- Parse a non-empty comma-separated list of `"key": value` pairs up to the
closing brace. -/
def parseObjItems : Nat → List Char → Option (List (String × Json) × List Char)
  | 0, _ => none
  | fuel + 1, cs =>
    match skipWs cs with
    | '"' :: rest =>
        (match parseStrRest fuel rest with
         | none => none
         | some (k, rest2) =>
           match skipWs rest2 with
           | ':' :: rest3 =>
               (match parseVal fuel rest3 with
                | none => none
                | some (v, rest4) =>
                  match skipWs rest4 with
                  | ',' :: rest5 =>
                      (match parseObjItems fuel rest5 with
                       | some (kvs, rest6) => some ((k, v) :: kvs, rest6)
                       | none => none)
                  | '\x7d' :: rest5 => some ([(k, v)], rest5)
                  | _ => none)
           | _ => none)
    | _ => none

end

/-- Model of `json.loads` on a string: parse one value and require only
whitespace after it; `none` is a `JSONDecodeError`. -/
def json_loads (s : String) : Option Json :=
  match parseVal (s.length + 1) s.data with
  | some (v, rest) => if (skipWs rest).isEmpty then some v else none
  | none => none

/-! ## `schemas.py` — request validation -/

/-- The `required_fields` check shared by both branches of `validate_details`:
`for field in ["questions", "answers"]: if field not in v: raise ValueError`.
The membership test is Python `in` (`pyContains`), whose `TypeError` on
non-iterable values also surfaces as a validation failure. -/
def checkRequiredFields (v : Json) : Except String Json :=
  match pyContains v "questions" with
  | Except.error msg => Except.error msg
  | Except.ok false => Except.error "Missing required field: questions"
  | Except.ok true =>
    match pyContains v "answers" with
    | Except.error msg => Except.error msg
    | Except.ok false => Except.error "Missing required field: answers"
    | Except.ok true => Except.ok v

/-- `QuestionPaperBase.validate_details` (schemas.py): if the value is not a
dict, re-parse it with `json.loads` (a non-string input makes `json.loads`
raise a `TypeError`, which Pydantic also converts into a validation failure);
then require the keys `questions` and `answers`.  Returns the (possibly
re-parsed) value that will be persisted. -/
def validate_details (v : Json) : Except String Json :=
  match v with
  | Json.obj _ => checkRequiredFields v
  | Json.str s =>
      (match json_loads s with
       | none => Except.error "Invalid JSON format for details"
       | some parsed => checkRequiredFields parsed)
  | _ => Except.error "the JSON object must be str, bytes or bytearray, not other"

/-- The full Pydantic validation of the `details` field: the declared field
type `Dict` rejects any non-dict value before the `validate_details` validator
runs (Pydantic v1 runs field validators after the type check). -/
def pydantic_validate_details (v : Json) : Except String Json :=
  match v with
  | Json.obj _ => validate_details v
  | _ => Except.error "value is not a valid dict"

/-! ## `models.py` / the relational store -/

/-- A row of the `question_papers` table. -/
structure QuestionPaper where
  id : String
  details : Json
deriving Repr, BEq

/-- A row of the `results` table. -/
structure ResultRec where
  id : Nat
  roll_number : String
  question_paper_id : String
  marks : Int
deriving Repr, DecidableEq

/-- The relational store: both tables in insertion order (SQLite returns rows
in rowid order, the stable order the pagination endpoints rely on), plus the
next autoincrement value for `results.id`. -/
structure Store where
  papers : List QuestionPaper
  results : List ResultRec
  nextResultId : Nat
deriving Repr, BEq

/-- Errors surfaced by a request: `http status detail` is a raised
`HTTPException`; `validation msg` is a Pydantic request-validation failure,
raised before the route handler runs. -/
inductive ApiError where
  | validation : String → ApiError
  | http : Nat → String → ApiError
deriving Repr, DecidableEq

/-- `db.query(QuestionPaper).filter(QuestionPaper.id == pid).first()`. -/
def firstPaper (st : Store) (pid : String) : Option QuestionPaper :=
  st.papers.find? (fun p => p.id = pid)

/-- `db.query(Result).filter(Result.id == rid).first()`. -/
def firstResult (st : Store) (rid : Nat) : Option ResultRec :=
  st.results.find? (fun r => r.id = rid)

/-- `.offset(skip)` on a query result. -/
def queryOffset (xs : List α) (skip : Nat) : List α :=
  xs.drop skip

/-- `.limit(n)` on a query result. -/
def queryLimit (xs : List α) (n : Nat) : List α :=
  xs.take n

/-! ## `routes/questions.py` -/

/-- `POST /questions` (`create_question_paper`).  `body` is the request's
`details` value; `newId` the fresh `uuid4` primary key; `commitErr` the
exception message of a failing `db.commit()` (`none` when the commit
succeeds, in which case the handler rolls back and re-raises a 400).
Returns the response (or error) together with the store after the request. -/
def create_question_paper (body : Json) (newId : String) (commitErr : Option String)
    (st : Store) : Except ApiError QuestionPaper × Store :=
  match pydantic_validate_details body with
  | Except.error msg => (Except.error (ApiError.validation msg), st)
  | Except.ok details =>
    match commitErr with
    | some msg =>
        (Except.error (ApiError.http 400 ("Error creating question paper: " ++ msg)), st)
    | none =>
        let paper : QuestionPaper := { id := newId, details := details }
        (Except.ok paper, { st with papers := st.papers ++ [paper] })

/-- `GET /questions` (`get_question_papers`): offset/limit pagination with
defaults `skip = 0`, `limit = 10`. -/
def get_question_papers (skip : Nat) (limit : Nat) (st : Store) : List QuestionPaper :=
  queryLimit (queryOffset st.papers skip) limit

/-- The default `skip` of the list endpoints. -/
def default_skip : Nat := 0

/-- The default `limit` of the list endpoints. -/
def default_limit : Nat := 10

/-- `GET /questions/{id}` (`get_question_paper`): 404 naming the id when
absent. -/
def get_question_paper (pid : String) (st : Store) : Except ApiError QuestionPaper :=
  match firstPaper st pid with
  | none =>
      Except.error (ApiError.http 404 ("Question paper with id " ++ pid ++ " not found"))
  | some qp => Except.ok qp

/-- `PUT /questions/{id}` (`update_question_paper`): body validation happens
first (in Pydantic, before the handler), then the existence check, then the
wholesale replacement of `details`; a failing commit rolls back and raises a
400. -/
def update_question_paper (pid : String) (body : Json) (commitErr : Option String)
    (st : Store) : Except ApiError QuestionPaper × Store :=
  match pydantic_validate_details body with
  | Except.error msg => (Except.error (ApiError.validation msg), st)
  | Except.ok details =>
    match firstPaper st pid with
    | none =>
        (Except.error (ApiError.http 404 ("Question paper with id " ++ pid ++ " not found")), st)
    | some qp =>
      match commitErr with
      | some msg =>
          (Except.error (ApiError.http 400 ("Error updating question paper: " ++ msg)), st)
      | none =>
          (Except.ok { qp with details := details },
           { st with papers :=
               st.papers.map (fun p => if p.id = pid then { p with details := details } else p) })

/-- `DELETE /questions/{id}` (`delete_question_paper`): existence check, then
`db.delete` with the ORM cascade `all, delete-orphan` removing every `Result`
whose `question_paper_id` references the paper; a failing commit rolls back
and raises a 400. -/
def delete_question_paper (pid : String) (commitErr : Option String)
    (st : Store) : Except ApiError String × Store :=
  match firstPaper st pid with
  | none =>
      (Except.error (ApiError.http 404 ("Question paper with id " ++ pid ++ " not found")), st)
  | some _ =>
    match commitErr with
    | some msg =>
        (Except.error (ApiError.http 400 ("Error deleting question paper: " ++ msg)), st)
    | none =>
        (Except.ok ("Question paper " ++ pid ++ " deleted successfully"),
         { st with papers := st.papers.filter (fun p => p.id ≠ pid),
                   results := st.results.filter (fun r => r.question_paper_id ≠ pid) })

/-! ## `services/omr_service.py` — file intake, cleanup, scoring stub -/

/-- The uploads directory as a map from path to byte contents. -/
structure FileSys where
  files : List (String × List Nat)
deriving Repr, BEq

/-- `Path.exists`. -/
def fsExists (path : String) (fs : FileSys) : Bool :=
  fs.files.any (fun f => f.1 = path)

/-- Writing a file (truncating any previous contents at that path). -/
def fsWrite (path : String) (contents : List Nat) (fs : FileSys) : FileSys :=
  { files := (path, contents) :: fs.files.filter (fun f => f.1 ≠ path) }

/-- `os.remove`. -/
def fsRemove (path : String) (fs : FileSys) : FileSys :=
  { files := fs.files.filter (fun f => f.1 ≠ path) }

/-- Python `str.startswith` (used for the `image/` content-type check),
modelled on the character lists so that it evaluates by `decide`. -/
def strStartsWith (s pre : String) : Bool :=
  pre.data.isPrefixOf s.data

/-- An uploaded file as FastAPI hands it to the route: client-supplied
filename, declared content type, and the byte stream. -/
structure Upload where
  filename : String
  content_type : String
  contents : List Nat
deriving Repr, DecidableEq

/-- `random.randint(lo, hi)` (both ends inclusive) as a deterministic function
of the generator state `seed`: for `lo ≤ hi` the value is
`lo + seed % (hi - lo + 1)`, which ranges uniformly over `[lo, hi]` as `seed`
ranges over the residues. -/
def randint (lo hi : Int) (seed : Nat) : Int :=
  lo + Int.ofNat (seed % ((hi - lo).toNat + 1))

/-- The upload path built in `save_upload_file`:
`UPLOAD_DIR / f"{random.randbytes(8).hex()}_{upload_file.filename}"`, with
`token` standing for the random hex prefix. -/
def uploadPath (token : String) (filename : String) : String :=
  "uploads/" ++ token ++ "_" ++ filename

/-- `save_upload_file` (omr_service.py): write the uploaded bytes under the
collision-resistant name and return the path; any exception while saving
(`saveErr = some msg`, nothing written) is wrapped in an `HTTPException` 500. -/
def save_upload_file (upload : Upload) (token : String) (saveErr : Option String)
    (fs : FileSys) : Except ApiError String × FileSys :=
  match saveErr with
  | some msg => (Except.error (ApiError.http 500 ("Error saving file: " ++ msg)), fs)
  | none =>
      let path := uploadPath token upload.filename
      (Except.ok path, fsWrite path upload.contents fs)

/-- `cleanup_file` (omr_service.py): remove the file if it exists; an
exception during removal (`removeOk = false`) is printed and swallowed, so the
function never raises and on failure the file simply stays. -/
def cleanup_file (file_path : String) (removeOk : Bool) (fs : FileSys) : FileSys :=
  if fsExists file_path fs then
    if removeOk then fsRemove file_path fs else fs
  else fs

/-- The `try`/`except` body of `evaluate_omr` (omr_service.py): look up the
paper (404 naming the id when absent), take
`len(details.get("questions", []))` and draw
`random.randint(0, total_questions)`.  An `HTTPException` is re-raised as is;
any other exception (the `AttributeError` from `.get` on a non-dict, or the
`TypeError` from `len` on an unsized value) is wrapped in an
`HTTPException` 500.  Note the computation reads only the store, the paper id
and the generator state — never the uploaded file. -/
def omr_score (question_paper_id : String) (seed : Nat) (st : Store) :
    Except ApiError Int :=
  match firstPaper st question_paper_id with
  | none =>
      Except.error (ApiError.http 404
        ("Question paper with id " ++ question_paper_id ++ " not found"))
  | some qp =>
    match pyGet qp.details "questions" (Json.arr []) with
    | Except.error msg =>
        Except.error (ApiError.http 500 ("Error processing OMR sheet: " ++ msg))
    | Except.ok qval =>
      match pyLen qval with
      | Except.error msg =>
          Except.error (ApiError.http 500 ("Error processing OMR sheet: " ++ msg))
      | Except.ok total => Except.ok (randint 0 (Int.ofNat total) seed)

/-- `evaluate_omr` (omr_service.py): the scoring body wrapped in
`try ... finally: cleanup_file(file_path)` — whatever the body's outcome, the
uploads directory afterwards is `cleanup_file` of the one before. -/
def evaluate_omr (file_path : String) (question_paper_id : String) (seed : Nat)
    (removeOk : Bool) (st : Store) (fs : FileSys) : Except ApiError Int × FileSys :=
  (omr_score question_paper_id seed st, cleanup_file file_path removeOk fs)

/-! ## `routes/evaluate.py` -/

/-- `POST /evaluate` (`evaluate_omr_sheet`): reject non-image content types
with a 400 before anything is saved; save the upload; score it; persist the
`Result` row.  An `HTTPException` from any step is re-raised unchanged; any
other exception (a failing commit, `commitErr = some msg`) rolls the
transaction back and raises a 500.  Returns the response, the store and the
uploads directory after the request. -/
def evaluate_omr_sheet (roll_number : String) (question_paper_id : String)
    (omr_sheet : Upload) (token : String) (saveErr : Option String)
    (commitErr : Option String) (seed : Nat) (removeOk : Bool)
    (st : Store) (fs : FileSys) : Except ApiError ResultRec × Store × FileSys :=
  if strStartsWith omr_sheet.content_type "image/" then
    match save_upload_file omr_sheet token saveErr fs with
    | (Except.error e, fs1) => (Except.error e, st, fs1)
    | (Except.ok file_path, fs1) =>
      match evaluate_omr file_path question_paper_id seed removeOk st fs1 with
      | (Except.error e, fs2) => (Except.error e, st, fs2)
      | (Except.ok marks, fs2) =>
        match commitErr with
        | some msg =>
            (Except.error (ApiError.http 500 ("Error processing evaluation: " ++ msg)),
             st, fs2)
        | none =>
            let result : ResultRec :=
              { id := st.nextResultId, roll_number := roll_number,
                question_paper_id := question_paper_id, marks := marks }
            (Except.ok result,
             { st with results := st.results ++ [result],
                       nextResultId := st.nextResultId + 1 },
             fs2)
  else
    (Except.error (ApiError.http 400 "File must be an image"), st, fs)

/-- `GET /evaluate/results` (`get_results`): optional exact-match filters on
roll number and paper id (Python truthiness: an empty string disables the
filter like `None` does), then offset/limit pagination with defaults
`skip = 0`, `limit = 10`. -/
def get_results (roll_number : Option String) (question_paper_id : Option String)
    (skip : Nat) (limit : Nat) (st : Store) : List ResultRec :=
  let q := st.results
  let q := match roll_number with
    | some r => if r = "" then q else q.filter (fun x => x.roll_number = r)
    | none => q
  let q := match question_paper_id with
    | some p => if p = "" then q else q.filter (fun x => x.question_paper_id = p)
    | none => q
  queryLimit (queryOffset q skip) limit

/-- `GET /evaluate/results/{id}` (`get_result`): 404 naming the id when
absent. -/
def get_result (rid : Nat) (st : Store) : Except ApiError ResultRec :=
  match firstResult st rid with
  | none => Except.error (ApiError.http 404 ("Result with id " ++ toString rid ++ " not found"))
  | some r => Except.ok r

/-! ## Helper lemmas -/

/-- Removing a path removes every directory entry with that path. -/
theorem fsExists_fsRemove (path : String) (fs : FileSys) :
    fsExists path (fsRemove path fs) = false := by
  simp only [fsExists, fsRemove, List.any_eq_true, decide_eq_true_eq]
  rw [Bool.eq_false_iff]
  intro h
  rw [List.any_eq_true] at h
  obtain ⟨x, hx, hp⟩ := h
  rw [List.mem_filter] at hx
  simp only [decide_eq_true_eq] at hx hp
  exact hx.2 hp

/-- The freshly written upload exists before cleanup runs. -/
theorem fsExists_fsWrite (path : String) (contents : List Nat) (fs : FileSys) :
    fsExists path (fsWrite path contents fs) = true := by
  simp [fsExists, fsWrite]

/-- After `cleanup_file` with a succeeding `os.remove`, the file is gone. -/
theorem fsExists_cleanup (path : String) (fs : FileSys) :
    fsExists path (cleanup_file path true fs) = false := by
  unfold cleanup_file
  by_cases h : fsExists path fs
  · simp [h, fsExists_fsRemove]
  · simp only [Bool.not_eq_true] at h
    simp [h]

/-- A details value that is not a JSON object carrying both required keys is
rejected by the Pydantic validation of the `details` field. -/
theorem pydantic_rejects_of_bad_keys (v : Json)
    (h : (v.hasKey "questions" && v.hasKey "answers") = false) :
    ∃ msg, pydantic_validate_details v = Except.error msg := by
  cases v with
  | obj fields =>
      rw [Bool.and_eq_false_iff] at h
      cases h with
      | inl hq =>
          refine ⟨"Missing required field: questions", ?_⟩
          simp only [pydantic_validate_details, validate_details, checkRequiredFields,
            pyContains]
          rw [show (fields.any fun kv => kv.1 = "questions") = false from hq]
      | inr ha =>
          by_cases hq : (Json.obj fields).hasKey "questions"
          · refine ⟨"Missing required field: answers", ?_⟩
            simp only [pydantic_validate_details, validate_details, checkRequiredFields,
              pyContains]
            rw [show (fields.any fun kv => kv.1 = "questions") = true from hq,
              show (fields.any fun kv => kv.1 = "answers") = false from ha]
          · rw [Bool.not_eq_true] at hq
            refine ⟨"Missing required field: questions", ?_⟩
            simp only [pydantic_validate_details, validate_details, checkRequiredFields,
              pyContains]
            rw [show (fields.any fun kv => kv.1 = "questions") = false from hq]
  | null => exact ⟨_, rfl⟩
  | bool b => exact ⟨_, rfl⟩
  | num n => exact ⟨_, rfl⟩
  | str s => exact ⟨_, rfl⟩
  | arr xs => exact ⟨_, rfl⟩

/-! ## Concrete fixtures used by the witnesses -/

/-- A well-formed details document with three questions. -/
def exDetails : Json :=
  Json.obj [("questions", Json.arr [Json.num 1, Json.num 2, Json.num 3]),
            ("answers", Json.arr [Json.num 1, Json.num 2, Json.num 1])]

/-- A store holding one paper `P1` and two results, one referencing `P1`. -/
def exStore : Store :=
  { papers := [{ id := "P1", details := exDetails }],
    results := [{ id := 1, roll_number := "R1", question_paper_id := "P1", marks := 2 },
                { id := 2, roll_number := "R2", question_paper_id := "P2", marks := 3 }],
    nextResultId := 3 }

/-- A PNG upload. -/
def exUpload : Upload :=
  { filename := "sheet.png", content_type := "image/png", contents := [137, 80, 78, 71] }

/-- An empty uploads directory. -/
def exFs : FileSys := { files := [] }

/-! ## The claims -/

/-- C6: an evaluation request whose declared content type does not start with
`image/` is rejected with HTTP 400 `File must be an image` before any file is
saved: the store (so no `Result`) and the uploads directory are exactly as
before the request, for every save/commit/cleanup environment. -/
theorem C6_non_image_rejected (roll pid : String) (up : Upload) (token : String)
    (saveErr commitErr : Option String) (seed : Nat) (removeOk : Bool)
    (st : Store) (fs : FileSys)
    (h : strStartsWith up.content_type "image/" = false) :
    evaluate_omr_sheet roll pid up token saveErr commitErr seed removeOk st fs =
      (Except.error (ApiError.http 400 "File must be an image"), st, fs) := by
  unfold evaluate_omr_sheet
  rw [h]
  simp

/-- Witness for C6 at a concrete `text/plain` upload. -/
theorem C6_non_image_rejected_witness :
    evaluate_omr_sheet "R1" "P1"
        { filename := "sheet.txt", content_type := "text/plain", contents := [1] }
        "tok" none none 0 true exStore exFs =
      (Except.error (ApiError.http 400 "File must be an image"), exStore, exFs) :=
  C6_non_image_rejected "R1" "P1"
    { filename := "sheet.txt", content_type := "text/plain", contents := [1] }
    "tok" none none 0 true exStore exFs (by decide)

/-- C5: an evaluation request naming an unknown paper id fails with HTTP 404
whose detail names the missing id, and the store — in particular the results
table — is unchanged, for every commit environment and cleanup outcome. -/
theorem C5_unknown_paper_not_found (roll pid : String) (up : Upload) (token : String)
    (commitErr : Option String) (seed : Nat) (removeOk : Bool) (st : Store) (fs : FileSys)
    (himg : strStartsWith up.content_type "image/" = true)
    (habs : firstPaper st pid = none) :
    ∃ fs2,
      evaluate_omr_sheet roll pid up token none commitErr seed removeOk st fs =
        (Except.error (ApiError.http 404
            ("Question paper with id " ++ pid ++ " not found")), st, fs2) := by
  refine ⟨cleanup_file (uploadPath token up.filename) removeOk
      (fsWrite (uploadPath token up.filename) up.contents fs), ?_⟩
  unfold evaluate_omr_sheet
  rw [himg]
  simp only [save_upload_file, evaluate_omr, omr_score, habs, if_true]

/-- Witness for C5 at the unknown id `P9`. -/
theorem C5_unknown_paper_not_found_witness :
    ∃ fs2,
      evaluate_omr_sheet "R1" "P9" exUpload "tok" none none 7 true exStore exFs =
        (Except.error (ApiError.http 404 "Question paper with id P9 not found"),
         exStore, fs2) :=
  C5_unknown_paper_not_found "R1" "P9" exUpload "tok" none 7 true exStore exFs
    (by decide) (by rfl)

/-- C8: both list endpoints paginate by dropping `skip` records from the
stably-ordered table (after the optional filters, for results) and truncating
to `limit`; the returned page never exceeds `limit` records; with the
defaults (`skip = 0`, `limit = 10`) the page is the first ten records. -/
theorem C8_pagination (st : Store) (k n : Nat) (r p : Option String) :
    get_question_papers k n st = (st.papers.drop k).take n ∧
    (get_question_papers k n st).length ≤ n ∧
    get_question_papers default_skip default_limit st = st.papers.take 10 ∧
    get_results none none k n st = (st.results.drop k).take n ∧
    (get_results r p k n st).length ≤ n ∧
    get_results none none default_skip default_limit st = st.results.take 10 := by
  have hlen : ∀ (xs : List ResultRec), (queryLimit xs n).length ≤ n := by
    intro xs
    simp only [queryLimit, List.length_take]
    omega
  refine ⟨rfl, ?_, rfl, rfl, ?_, rfl⟩
  · simp only [get_question_papers, queryLimit, queryOffset, List.length_take]
    omega
  · unfold get_results
    cases r with
    | none =>
        cases p with
        | none => exact hlen _
        | some pv =>
            by_cases hp : pv = ""
            · simp only [if_pos hp]
              exact hlen _
            · simp only [if_neg hp]
              exact hlen _
    | some rv =>
        cases p with
        | none =>
            by_cases hr : rv = ""
            · simp only [if_pos hr]
              exact hlen _
            · simp only [if_neg hr]
              exact hlen _
        | some pv =>
            by_cases hr : rv = "" <;> by_cases hp : pv = ""
            · simp only [if_pos hr, if_pos hp]
              exact hlen _
            · simp only [if_pos hr, if_neg hp]
              exact hlen _
            · simp only [if_neg hr, if_pos hp]
              exact hlen _
            · simp only [if_neg hr, if_neg hp]
              exact hlen _

/-- C9: the computed marks never depend on the uploaded image.  At the service
level, `evaluate_omr` computes the same score for any file path, any uploads
directory and hence any file contents; at the route level, two evaluation
requests that agree on roll number, paper id, filename, content type, token
and generator state but carry arbitrarily different file bytes produce the
same response. -/
theorem C9_marks_ignore_image (roll pid fn ct token : String) (b1 b2 : List Nat)
    (seed : Nat) (removeOk : Bool) (st : Store)
    (path1 path2 : String) (fs fs1 fs2 : FileSys) :
    (evaluate_omr path1 pid seed removeOk st fs1).1 =
      (evaluate_omr path2 pid seed removeOk st fs2).1 ∧
    (evaluate_omr_sheet roll pid { filename := fn, content_type := ct, contents := b1 }
        token none none seed removeOk st fs).1 =
      (evaluate_omr_sheet roll pid { filename := fn, content_type := ct, contents := b2 }
        token none none seed removeOk st fs).1 := by
  constructor
  · rfl
  · unfold evaluate_omr_sheet
    by_cases h : strStartsWith ct "image/" = true
    · rw [h]
      simp only [save_upload_file, evaluate_omr, if_true]
      cases hsc : omr_score pid seed st with
      | error e => simp [hsc]
      | ok m => simp [hsc]
    · rw [Bool.not_eq_true] at h
      rw [h]
      simp

/-- C1: deleting a question paper cascades to its results.  If the primary
keys of the results table are distinct (the store invariant) and the delete
succeeds, then `GET /evaluate/results/{id}` on every result that referenced
the deleted paper now fails with 404 naming that result id, and no surviving
result references the deleted paper. -/
theorem C1_delete_cascades (st : Store) (pid msg : String) (st2 : Store)
    (huniq : (st.results.map ResultRec.id).Nodup)
    (hdel : delete_question_paper pid none st = (Except.ok msg, st2)) :
    (∀ r ∈ st.results, r.question_paper_id = pid →
        get_result r.id st2 =
          Except.error (ApiError.http 404
            ("Result with id " ++ toString r.id ++ " not found"))) ∧
    ∀ r ∈ st2.results, r.question_paper_id ≠ pid := by
  unfold delete_question_paper at hdel
  cases hfp : firstPaper st pid with
  | none =>
      rw [hfp] at hdel
      exact absurd hdel (by simp)
  | some qp =>
      rw [hfp] at hdel
      rw [Prod.mk.injEq] at hdel
      obtain ⟨-, hst2⟩ := hdel
      subst hst2
      constructor
      · intro r hr hrq
        unfold get_result firstResult
        have hnone :
            (st.results.filter (fun x => x.question_paper_id ≠ pid)).find?
              (fun x => x.id = r.id) = none := by
          rw [List.find?_eq_none]
          intro x hx
          rw [List.mem_filter] at hx
          obtain ⟨hx1, hx2⟩ := hx
          simp only [decide_eq_true_eq] at hx2 ⊢
          intro hxid
          exact hx2 (List.inj_on_of_nodup_map huniq hx1 hr hxid ▸ hrq)
        simp only [hnone]
      · intro r hr
        have : r ∈ st.results.filter (fun x => x.question_paper_id ≠ pid) := hr
        rw [List.mem_filter] at this
        simpa using this.2

/-- Witness for C1: in the concrete store, deleting `P1` makes the lookup of
its result (id 1) fail with 404. -/
theorem C1_delete_cascades_witness :
    get_result 1 (delete_question_paper "P1" none exStore).2 =
      Except.error (ApiError.http 404 "Result with id 1 not found") := by
  have h := (C1_delete_cascades exStore "P1" "Question paper P1 deleted successfully"
      (delete_question_paper "P1" none exStore).2 (by decide) (by rfl)).1
  exact h { id := 1, roll_number := "R1", question_paper_id := "P1", marks := 2 }
    (by simp [exStore]) rfl

/-- The claim C3 predicate on a request's `details` value: it is a mapping
carrying both required keys.  A details document sent as serialized JSON text
is a `Json.str`, never a mapping, so every instance of the claim (including
the serialized-text ones) falsifies this predicate. -/
def details_is_valid_mapping (v : Json) : Bool :=
  v.hasKey "questions" && v.hasKey "answers"

/-- C3: a create or update request whose `details` is not a mapping containing
both `questions` and `answers` fails with a request-validation error, and the
store is unchanged — no paper is created and none is modified — whatever the
commit environment would have done. -/
theorem C3_invalid_details_rejected (body : Json) (newId pid : String)
    (commitErr : Option String) (st : Store)
    (hbad : details_is_valid_mapping body = false) :
    (∃ msg, create_question_paper body newId commitErr st =
        (Except.error (ApiError.validation msg), st)) ∧
    (∃ msg, update_question_paper pid body commitErr st =
        (Except.error (ApiError.validation msg), st)) := by
  obtain ⟨msg, hmsg⟩ := pydantic_rejects_of_bad_keys body hbad
  constructor
  · refine ⟨msg, ?_⟩
    unfold create_question_paper
    rw [hmsg]
  · refine ⟨msg, ?_⟩
    unfold update_question_paper
    rw [hmsg]

/-- Witness for C3 at a details document missing the `answers` key. -/
theorem C3_invalid_details_rejected_witness :
    (∃ msg, create_question_paper (Json.obj [("questions", Json.arr [])]) "N1" none exStore =
        (Except.error (ApiError.validation msg), exStore)) ∧
    (∃ msg, update_question_paper "P1" (Json.obj [("questions", Json.arr [])]) none exStore =
        (Except.error (ApiError.validation msg), exStore)) :=
  C3_invalid_details_rejected (Json.obj [("questions", Json.arr [])]) "N1" "P1"
    none exStore (by decide)

/-- `random.randint(0, n)` lands in `[0, n]` for every generator state. -/
theorem randint_range (n seed : Nat) :
    0 ≤ randint 0 (Int.ofNat n) seed ∧ randint 0 (Int.ofNat n) seed ≤ (n : Int) := by
  unfold randint
  have hmod : seed % (n + 1) ≤ n := Nat.lt_succ_iff.mp (Nat.mod_lt seed (Nat.succ_pos n))
  constructor
  · simp only [zero_add]
    exact Int.ofNat_nonneg _
  · simp only [zero_add, sub_zero, Int.toNat_ofNat]
    exact Int.ofNat_le.mpr hmod

/-- Every value of `[0, n]` is reached by some generator state. -/
theorem randint_surjective (n : Nat) (v : Int) (h0 : 0 ≤ v) (hn : v ≤ (n : Int)) :
    randint 0 (Int.ofNat n) v.toNat = v := by
  unfold randint
  have hv : v.toNat ≤ n := by omega
  have h1 : (Int.ofNat n - 0).toNat = n := rfl
  rw [h1, Nat.mod_eq_of_lt (Nat.lt_succ_of_le hv)]
  simp only [zero_add, Int.ofNat_eq_natCast]
  omega

/-- Successful `Json.lookup` determines `dict.get`. -/
theorem pyGet_of_lookup (j : Json) (key : String) (v dflt : Json)
    (h : j.lookup key = some v) : pyGet j key dflt = Except.ok v := by
  cases j with
  | obj fields =>
      simp only [Json.lookup] at h
      cases hf : fields.find? (fun kv => kv.1 = key) with
      | none => rw [hf] at h; exact absurd h (by simp)
      | some kv =>
          rw [hf] at h
          simp only [Option.some.injEq] at h
          simp only [pyGet, hf, h]
  | null => simp [Json.lookup] at h
  | bool b => simp [Json.lookup] at h
  | num m => simp [Json.lookup] at h
  | str s => simp [Json.lookup] at h
  | arr xs => simp [Json.lookup] at h

/-- When the stored paper's `questions` value is a list `qs`, the scoring stub
returns exactly `randint 0 qs.length seed`. -/
theorem omr_score_of_questions_list (st : Store) (pid : String) (seed : Nat)
    (qp : QuestionPaper) (qs : List Json)
    (hfp : firstPaper st pid = some qp)
    (hq : Json.lookup qp.details "questions" = some (Json.arr qs)) :
    omr_score pid seed st = Except.ok (randint 0 (Int.ofNat qs.length) seed) := by
  unfold omr_score
  rw [hfp]
  simp only [pyGet_of_lookup qp.details "questions" (Json.arr qs) (Json.arr []) hq, pyLen]

/-- C2: against a stored paper whose `details` hold a `questions` list of
length `N`, a successful evaluation computes marks
`m = randint 0 N seed` with `0 ≤ m ≤ N`; every value of that inclusive range
is reached by some generator state; and the persisted result row carries
exactly those marks. -/
theorem C2_marks_in_range (st : Store) (pid roll token path1 : String) (up : Upload)
    (fs : FileSys) (seed : Nat) (removeOk : Bool) (qp : QuestionPaper) (qs : List Json)
    (hfp : firstPaper st pid = some qp)
    (hq : Json.lookup qp.details "questions" = some (Json.arr qs))
    (himg : strStartsWith up.content_type "image/" = true) :
    (evaluate_omr path1 pid seed removeOk st fs).1 =
        Except.ok (randint 0 (Int.ofNat qs.length) seed) ∧
    0 ≤ randint 0 (Int.ofNat qs.length) seed ∧
    randint 0 (Int.ofNat qs.length) seed ≤ (qs.length : Int) ∧
    (∀ v : Int, 0 ≤ v → v ≤ (qs.length : Int) →
        ∃ seed2, (evaluate_omr path1 pid seed2 removeOk st fs).1 = Except.ok v) ∧
    (∃ st2 fs2,
        evaluate_omr_sheet roll pid up token none none seed removeOk st fs =
          (Except.ok { id := st.nextResultId, roll_number := roll,
                       question_paper_id := pid,
                       marks := randint 0 (Int.ofNat qs.length) seed }, st2, fs2) ∧
        { id := st.nextResultId, roll_number := roll, question_paper_id := pid,
          marks := randint 0 (Int.ofNat qs.length) seed } ∈ st2.results) := by
  have hscore : ∀ s2, omr_score pid s2 st =
      Except.ok (randint 0 (Int.ofNat qs.length) s2) :=
    fun s2 => omr_score_of_questions_list st pid s2 qp qs hfp hq
  refine ⟨?_, (randint_range qs.length seed).1, (randint_range qs.length seed).2, ?_, ?_⟩
  · show (omr_score pid seed st, _).1 = _
    rw [hscore seed]
  · intro v h0 hn
    refine ⟨v.toNat, ?_⟩
    show (omr_score pid v.toNat st, _).1 = _
    rw [hscore v.toNat, randint_surjective qs.length v h0 hn]
  · refine ⟨{ st with
        results := st.results ++
          [{ id := st.nextResultId,
             roll_number := roll,
             question_paper_id := pid,
             marks := randint 0 (Int.ofNat qs.length) seed }],
        nextResultId := st.nextResultId + 1 },
      cleanup_file (uploadPath token up.filename) removeOk
        (fsWrite (uploadPath token up.filename) up.contents fs), ?_, ?_⟩
    · unfold evaluate_omr_sheet
      rw [himg]
      simp only [save_upload_file, evaluate_omr, hscore seed]
      simp
    · simp

/-- C2 witness: against the concrete three-question paper `P1`, the computed
marks lie in `[0, 3]`. -/
theorem C2_marks_in_range_witness :
    0 ≤ randint 0 (Int.ofNat 3) 7 ∧ randint 0 (Int.ofNat 3) 7 ≤ ((3 : Nat) : Int) := by
  have h := C2_marks_in_range exStore "P1" "R1" "tok" "somepath" exUpload exFs 7 true
    { id := "P1", details := exDetails }
    [Json.num 1, Json.num 2, Json.num 3] (by rfl) (by rfl) (by decide)
  exact ⟨h.2.1, h.2.2.1⟩

/-- C7: once the upload is saved, every exit path of the workflow — scoring
succeeded, scoring raised 404, scoring raised any other exception, or the
final commit failed — runs the cleanup: the uploads directory afterwards is
exactly `cleanup_file` of the directory after the save (so with a succeeding
`os.remove` the file is gone), and the workflow's response and store are the
same whether or not the cleanup's `os.remove` fails (cleanup failures are
swallowed, never propagated).  The last conjunct is the service-level
`finally`: `evaluate_omr` applies `cleanup_file` unconditionally. -/
theorem C7_cleanup_on_every_path (roll pid : String) (up : Upload) (token : String)
    (commitErr : Option String) (seed : Nat) (st : Store) (fs : FileSys)
    (himg : strStartsWith up.content_type "image/" = true) :
    (∀ removeOk,
      (evaluate_omr_sheet roll pid up token none commitErr seed removeOk st fs).2.2 =
        cleanup_file (uploadPath token up.filename) removeOk
          (fsWrite (uploadPath token up.filename) up.contents fs)) ∧
    fsExists (uploadPath token up.filename)
      (evaluate_omr_sheet roll pid up token none commitErr seed true st fs).2.2 = false ∧
    (∀ r1 r2 : Bool,
      (evaluate_omr_sheet roll pid up token none commitErr seed r1 st fs).1 =
        (evaluate_omr_sheet roll pid up token none commitErr seed r2 st fs).1 ∧
      (evaluate_omr_sheet roll pid up token none commitErr seed r1 st fs).2.1 =
        (evaluate_omr_sheet roll pid up token none commitErr seed r2 st fs).2.1) ∧
    (∀ path removeOk st2 fs2,
      (evaluate_omr path pid seed removeOk st2 fs2).2 = cleanup_file path removeOk fs2) := by
  have hfs : ∀ removeOk,
      (evaluate_omr_sheet roll pid up token none commitErr seed removeOk st fs).2.2 =
        cleanup_file (uploadPath token up.filename) removeOk
          (fsWrite (uploadPath token up.filename) up.contents fs) := by
    intro removeOk
    unfold evaluate_omr_sheet
    rw [if_pos himg]
    simp only [save_upload_file, evaluate_omr]
    cases omr_score pid seed st with
    | error e => rfl
    | ok m => cases commitErr with
      | some msg => rfl
      | none => rfl
  refine ⟨hfs, ?_, ?_, fun path removeOk st2 fs2 => rfl⟩
  · rw [hfs true]
    exact fsExists_cleanup _ _
  · intro r1 r2
    unfold evaluate_omr_sheet
    simp only [if_pos himg]
    simp only [save_upload_file, evaluate_omr]
    cases omr_score pid seed st with
    | error e => exact ⟨rfl, rfl⟩
    | ok m => cases commitErr with
      | some msg => exact ⟨rfl, rfl⟩
      | none => exact ⟨rfl, rfl⟩

/-- C7 witness: after the concrete successful evaluation, the saved file
`uploads/tok_sheet.png` is no longer present. -/
theorem C7_cleanup_on_every_path_witness :
    fsExists (uploadPath "tok" "sheet.png")
      (evaluate_omr_sheet "R1" "P1" exUpload "tok" none none 7 true exStore exFs).2.2 =
      false :=
  (C7_cleanup_on_every_path "R1" "P1" exUpload "tok" none 7 exStore exFs (by decide)).2.1

/-- A JSON object carrying both required keys passes `checkRequiredFields`. -/
theorem checkRequiredFields_ok (fields : List (String × Json))
    (hq2 : (Json.obj fields).hasKey "questions" = true)
    (ha2 : (Json.obj fields).hasKey "answers" = true) :
    checkRequiredFields (Json.obj fields) = Except.ok (Json.obj fields) := by
  simp only [Json.hasKey] at hq2 ha2
  simp only [checkRequiredFields, pyContains, hq2, ha2]

/-- A successful lookup of a key implies the object carries it. -/
theorem hasKey_of_lookup (j : Json) (key : String) (v : Json)
    (h : j.lookup key = some v) : j.hasKey key = true := by
  cases j with
  | obj fields =>
      simp only [Json.lookup] at h
      cases hf : fields.find? (fun kv => kv.1 = key) with
      | none => rw [hf] at h; exact absurd h (by simp)
      | some kv =>
          have h1 : kv ∈ fields := List.mem_of_find?_eq_some hf
          have h2 := List.find?_some hf
          simp only [Json.hasKey, List.any_eq_true]
          exact ⟨kv, h1, h2⟩
  | null => simp [Json.lookup] at h
  | bool b => simp [Json.lookup] at h
  | num m => simp [Json.lookup] at h
  | str s => simp [Json.lookup] at h
  | arr xs => simp [Json.lookup] at h

/-- C10: validation only checks that the keys `questions` and `answers` are
present, not that their values have sensible types.  A details document whose
`questions` value is the number `n` passes validation, so the paper is
created; every later evaluation against that paper fails with HTTP 500
(`len(n)` raises `TypeError`), creates no result (the store is returned
unchanged), and the uploaded file is still cleaned up. -/
theorem C10_presence_only_validation (fields : List (String × Json)) (n : Int)
    (st st0 : Store) (pid roll token newId : String) (up : Upload) (fs : FileSys)
    (seed : Nat)
    (hq : Json.lookup (Json.obj fields) "questions" = some (Json.num n))
    (ha : (Json.obj fields).hasKey "answers" = true)
    (hfp : firstPaper st pid = some { id := pid, details := Json.obj fields })
    (himg : strStartsWith up.content_type "image/" = true) :
    create_question_paper (Json.obj fields) newId none st0 =
      (Except.ok { id := newId, details := Json.obj fields },
       { st0 with papers := st0.papers ++ [{ id := newId, details := Json.obj fields }] }) ∧
    (∃ fs2,
      evaluate_omr_sheet roll pid up token none none seed true st fs =
        (Except.error (ApiError.http 500
            "Error processing OMR sheet: object of type 'int' has no len()"), st, fs2) ∧
      fsExists (uploadPath token up.filename) fs2 = false) := by
  have hvalid : pydantic_validate_details (Json.obj fields) =
      Except.ok (Json.obj fields) := by
    simp only [pydantic_validate_details, validate_details]
    exact checkRequiredFields_ok fields (hasKey_of_lookup _ _ _ hq) ha
  have hscore : omr_score pid seed st =
      Except.error (ApiError.http 500
        "Error processing OMR sheet: object of type 'int' has no len()") := by
    unfold omr_score
    rw [hfp]
    have hget := pyGet_of_lookup (Json.obj fields) "questions" (Json.num n)
      (Json.arr []) hq
    simp only [hget, pyLen]
    rfl
  constructor
  · simp only [create_question_paper, hvalid]
  · refine ⟨cleanup_file (uploadPath token up.filename) true
        (fsWrite (uploadPath token up.filename) up.contents fs), ?_, ?_⟩
    · unfold evaluate_omr_sheet
      rw [if_pos himg]
      simp only [save_upload_file, evaluate_omr, hscore]
    · exact fsExists_cleanup _ _

/-- A details document whose `questions` value is a bare number: it passes the
presence-only validation but breaks the scoring stub. -/
def badDetails : Json :=
  Json.obj [("questions", Json.num 7), ("answers", Json.null)]

/-- A store holding one paper with `badDetails`. -/
def badStore : Store :=
  { papers := [{ id := "B1", details := badDetails }], results := [], nextResultId := 1 }

/-- C10 witness: the concrete paper `B1` with `questions = 7` is accepted at
creation, and evaluating against it yields the concrete 500. -/
theorem C10_presence_only_validation_witness :
    ∃ fs2,
      evaluate_omr_sheet "R1" "B1" exUpload "tok" none none 4 true badStore exFs =
        (Except.error (ApiError.http 500
            "Error processing OMR sheet: object of type 'int' has no len()"),
         badStore, fs2) ∧
      fsExists (uploadPath "tok" "sheet.png") fs2 = false :=
  (C10_presence_only_validation [("questions", Json.num 7), ("answers", Json.null)] 7
    badStore exStore "B1" "R1" "tok" "N1" exUpload exFs 4
    (by rfl) (by rfl) (by rfl) (by decide)).2

/-- C4 counterexample: a commit failure during `DELETE /questions/{id}` is
surfaced as HTTP 400 (`Error deleting question paper: ...`), not as a
processing error — the spec's taxonomy reserves status 500 for processing
errors, and no 500 is raised here. -/
theorem C4_counterexample :
    (delete_question_paper "P1" (some "database is locked") exStore).1 =
      Except.error (ApiError.http 400
        "Error deleting question paper: database is locked") ∧
    ∀ d, (delete_question_paper "P1" (some "database is locked") exStore).1 ≠
      Except.error (ApiError.http 500 d) := by
  constructor
  · rfl
  · intro d h
    rw [show (delete_question_paper "P1" (some "database is locked") exStore).1 =
        Except.error (ApiError.http 400
          "Error deleting question paper: database is locked") from rfl] at h
    simp at h

/-- C4 (amended): every store-mutating operation is atomic — when the commit
raises, the handler rolls back unconditionally and returns the pre-request
store with an error instead of the normal result.  The surfaced error is
HTTP 400 (`Error creating/updating/deleting question paper: ...`) for the
three paper operations and HTTP 500 (`Error processing evaluation: ...`) for
the evaluation workflow. -/
theorem C4_rollback_on_commit_failure (st : Store) (fs : FileSys) (msg : String) :
    (∀ body newId d, pydantic_validate_details body = Except.ok d →
      create_question_paper body newId (some msg) st =
        (Except.error (ApiError.http 400
          ("Error creating question paper: " ++ msg)), st)) ∧
    (∀ pid body qp d, pydantic_validate_details body = Except.ok d →
      firstPaper st pid = some qp →
      update_question_paper pid body (some msg) st =
        (Except.error (ApiError.http 400
          ("Error updating question paper: " ++ msg)), st)) ∧
    (∀ pid qp, firstPaper st pid = some qp →
      delete_question_paper pid (some msg) st =
        (Except.error (ApiError.http 400
          ("Error deleting question paper: " ++ msg)), st)) ∧
    (∀ roll pid up token seed removeOk m,
      strStartsWith up.content_type "image/" = true →
      omr_score pid seed st = Except.ok m →
      ∃ fs2, evaluate_omr_sheet roll pid up token none (some msg) seed removeOk st fs =
        (Except.error (ApiError.http 500
          ("Error processing evaluation: " ++ msg)), st, fs2)) := by
  refine ⟨?_, ?_, ?_, ?_⟩
  · intro body newId d h
    unfold create_question_paper
    rw [h]
  · intro pid body qp d h hfp
    unfold update_question_paper
    rw [h, hfp]
  · intro pid qp hfp
    unfold delete_question_paper
    rw [hfp]
  · intro roll pid up token seed removeOk m himg hsc
    refine ⟨cleanup_file (uploadPath token up.filename) removeOk
      (fsWrite (uploadPath token up.filename) up.contents fs), ?_⟩
    unfold evaluate_omr_sheet
    rw [if_pos himg]
    simp only [save_upload_file, evaluate_omr, hsc]

/-- C4 witness: a concrete failed commit during create returns the 400 and
leaves the store untouched. -/
theorem C4_rollback_on_commit_failure_witness :
    create_question_paper exDetails "N1" (some "disk error") exStore =
      (Except.error (ApiError.http 400
        "Error creating question paper: disk error"), exStore) :=
  (C4_rollback_on_commit_failure exStore exFs "disk error").1 exDetails "N1"
    exDetails (by rfl)
